import Mathlib

/-!
Shallow embedding of `tencent_table_ocr_batch.py`: the recognition worker
(`process_image`), the error-classification tables, the grid builder
(`create_worksheet`), the checkpoint path derivation (`save_workbook`) and the
draining loop of `main`.  Machine-level side effects (logging, the actual HTTP
call, file IO) are abstracted: the behaviour of the remote service on the k-th
attempt is an explicit parameter, and saves are recorded as the list of paths
written.
-/

namespace TableOCR

/-- The constant MAX_IMAGE_SIZE = 3 * 1024 * 1024 (line 30). -/
def MAX_IMAGE_SIZE : Nat := 3 * 1024 * 1024

/-- Embedding of check_image_size (lines 87-98).  The file size is `none` when
`os.path.getsize` raises (file missing/unreadable): the `except` branch
returns `False`, exactly like the over-limit branch. -/
def check_image_size (size : Option Nat) : Bool :=
  match size with
  | some file_size => if file_size > MAX_IMAGE_SIZE then false else true
  | none => false

/-- The `non_retryable_errors` dict of `process_image` (lines 118-144),
in source order. -/
def non_retryable_errors : List (String × String) :=
  [("AuthFailure.SecretIdNotFound", "密钥ID不存在"),
   ("AuthFailure.SignatureFailure", "签名验证失败"),
   ("AuthFailure.TokenFailure", "临时令牌无效"),
   ("FailedOperation.ArrearsError", "账户欠费"),
   ("FailedOperation.UnOpenError", "服务未开通"),
   ("LimitExceeded", "超过配额限制"),
   ("FailedOperation.OcrFailed.InvalidImage", "无效图片格式"),
   ("FailedOperation.OcrFailed.TooLarge", "图片超过3MB限制"),
   ("FailedOperation.OcrFailed.UnsupportedFormat", "不支持的图片格式"),
   ("FailedOperation.OcrFailed.LowQuality", "图片质量过低"),
   ("FailedOperation.OcrFailed.NoText", "未检测到文本"),
   ("FailedOperation.OcrFailed.NoTable", "未检测到表格"),
   ("FailedOperation.OcrFailed.ComplexTable", "表格结构过于复杂"),
   ("FailedOperation.ImageSizeTooSmall", "图片尺寸过小"),
   ("FailedOperation.ImageNoText", "图片中无文本"),
   ("InvalidParameter", "参数错误"),
   ("InvalidParameterValue", "参数值无效"),
   ("MissingParameter", "缺少必要参数")]

/-- The `error_guidance` dict of `process_image` (lines 147-153). -/
def error_guidance : List (String × String) :=
  [("FailedOperation.OcrFailed.LowQuality", "建议：提高图片分辨率，增强对比度，减少反光"),
   ("FailedOperation.OcrFailed.ComplexTable", "建议：简化表格结构，避免嵌套表格，减少合并单元格"),
   ("FailedOperation.OcrFailed.NoText", "建议：确认图片包含文字，检查文字方向"),
   ("FailedOperation.OcrFailed.NoTable", "建议：确保图片包含清晰的表格边框"),
   ("FailedOperation.ImageDecodeFailed", "建议：重新保存图片为标准JPEG/PNG格式")]

/-- The generic suggestion (`error_guidance.get(error_code, ...)`, line 177). -/
def generic_guidance : String := "建议：检查图片内容并重试"

/-- Embedding of the startswith test on the AuthFailure prefix (line 181). -/
def startsWithAuth (code : String) : Bool :=
  List.isPrefixOf "AuthFailure".toList code.toList

/-- The three-way error category of the Error Classifier in the spec, read off the
branch order of `process_image` lines 175-182: the `non_retryable_errors`
lookup comes first, the `AuthFailure` raise second, retry otherwise. -/
inductive ErrCategory where
  | Terminal
  | AuthFatal
  | Retryable
deriving DecidableEq, Repr

/-- The classification implemented by branch order in `process_image`
(lines 175-191). -/
def classify (code : String) : ErrCategory :=
  match non_retryable_errors.lookup code with
  | some _ => .Terminal
  | none => if startsWithAuth code then .AuthFatal else .Retryable

/-- One cell of a detected table region (`RowTl`/`RowBr`/`ColTl`/`ColBr`/`Text`). -/
structure TableCell where
  rowTl : Nat
  rowBr : Nat
  colTl : Nat
  colBr : Nat
  text : String
deriving DecidableEq, Repr

/-- One detected table region: its `Cells` list. -/
structure Table where
  cells : List TableCell
deriving DecidableEq, Repr

/-- A parsed recognition response.  `tableDetections = none` models a JSON
object with no `TableDetections` key (line 231 checks key membership first). -/
structure RawResult where
  tableDetections : Option (List Table)
deriving DecidableEq, Repr

/-- What the remote call does on one attempt: a parsed result, a
`TencentCloudSDKException` with a code and message, or a non-SDK (network)
exception with a detail string. -/
inductive AttemptResult where
  | success (r : RawResult)
  | sdkError (code : String) (msg : String)
  | netError (detail : String)

/-- What the retry loop of `process_image` produces before the outer
`except` at line 221 is taken into account: a result, a returned failure
message, or the `RuntimeError` raised at line 182. -/
inductive InnerOutcome where
  | ok (r : RawResult)
  | fail (msg : String)
  | authRaise (msg : String)
deriving DecidableEq, Repr

/-- The observable behaviour of one `process_image` call: the returned
`(result, error_msg)` pair plus instrumentation — how many recognition
requests were sent and which sleeps were performed, in order. -/
structure WorkerRun where
  result : Option RawResult
  errMsg : Option String
  calls : Nat
  sleeps : List Nat
deriving DecidableEq, Repr

/-- The failure message for a code found in `non_retryable_errors`
(lines 176-178). -/
def terminalMessage (code friendly : String) : String :=
  friendly ++ " | " ++ ((error_guidance.lookup code).getD generic_guidance) ++
    " [错误码: " ++ code ++ "]"

/-- The `for attempt in range(max_retries)` loop of `process_image`
(lines 160-219), traversing the list of remaining attempt indices with the
current `retry_delay`.  Returns the outcome, the number of requests sent and
the sleeps performed. -/
def processLoop (attempts : Nat → AttemptResult) (max_retries : Nat) :
    List Nat → Nat → InnerOutcome × Nat × List Nat
  | [], _ => (.fail "达到最大重试次数", 0, [])
  | attempt :: rest, retry_delay =>
    match attempts attempt with
    | .success r => (.ok r, 1, [])
    | .sdkError error_code error_msg =>
      match non_retryable_errors.lookup error_code with
      | some friendly_msg => (.fail (terminalMessage error_code friendly_msg), 1, [])
      | none =>
        if startsWithAuth error_code then
          (.authRaise ("腾讯云认证错误: " ++ error_msg ++ " [错误码: " ++ error_code ++ "]"),
           1, [])
        else if attempt < max_retries - 1 then
          let r := processLoop attempts max_retries rest (retry_delay * 2)
          (r.1, r.2.1 + 1, retry_delay :: r.2.2)
        else
          (.fail ("重试失败: " ++ error_msg ++ " [错误码: " ++ error_code ++ "]"), 1, [])
    | .netError detail =>
      if attempt < max_retries - 1 then
        let r := processLoop attempts max_retries rest (retry_delay * 2)
        (r.1, r.2.1 + 1, retry_delay :: r.2.2)
      else
        (.fail ("网络错误: " ++ detail), 1, [])

/-- The constant max_retries = 3 (line 156). -/
def max_retries : Nat := 3

/-- Embedding of process_image (lines 100-224).  The outer `try` at line 103 catches
every exception — including the `RuntimeError` raised for authentication
errors at line 182, because that raise happens inside an `except` handler and
so skips the sibling handlers of the inner `try` and lands at line 221 —
converting it to `("处理错误: " + str(e))`. -/
def process_image (fileSize : Option Nat) (attempts : Nat → AttemptResult) : WorkerRun :=
  if check_image_size fileSize = false then
    { result := none, errMsg := some "图片超过3MB限制", calls := 0, sleeps := [] }
  else
    match processLoop attempts max_retries (List.range max_retries) 2 with
    | (.ok r, c, s) => { result := some r, errMsg := none, calls := c, sleeps := s }
    | (.fail m, c, s) => { result := none, errMsg := some m, calls := c, sleeps := s }
    | (.authRaise m, c, s) =>
      { result := none, errMsg := some ("处理错误: " ++ m), calls := c, sleeps := s }

/-- Embedding of the replace call at line 263: every line-feed character of the
cell text is removed. -/
def stripNewlines (s : String) : String :=
  String.mk (s.toList.filter (fun ch => ch ≠ Char.ofNat 10))

/-- Python-dict insertion for `cell_dict[(row_start, col_start)] = text`
(line 266): an existing key keeps its position and gets the new value, a new
key is appended. -/
def dictInsert (m : List ((Nat × Nat) × String)) (k : Nat × Nat) (v : String) :
    List ((Nat × Nat) × String) :=
  if m.any (fun p => p.1 = k) then
    m.map (fun p => if p.1 = k then (k, v) else p)
  else
    m ++ [(k, v)]

/-- Reading `cell_dict` at one coordinate. -/
def dictGet (m : List ((Nat × Nat) × String)) (k : Nat × Nat) : Option String :=
  (m.find? (fun p => p.1 = k)).map (fun p => p.2)

/-- The `cell_dict` built by the loop of lines 256-266. -/
def buildCellDict (cells : List TableCell) : List ((Nat × Nat) × String) :=
  cells.foldl
    (fun m cell => dictInsert m (cell.rowTl + 1, cell.colTl + 1) (stripNewlines cell.text))
    []

/-- The `merged_cells` list of lines 268-270: a cell is recorded iff
`row_end > row_start or col_end > col_start`, with `row_start = RowTl + 1`,
`row_end = RowBr`, `col_start = ColTl + 1`, `col_end = ColBr`. -/
def buildMerges (cells : List TableCell) : List (Nat × Nat × Nat × Nat) :=
  (cells.filter (fun c => c.rowBr > c.rowTl + 1 || c.colBr > c.colTl + 1)).map
    (fun c => (c.rowTl + 1, c.rowBr, c.colTl + 1, c.colBr))

/-- One workbook sheet as `create_worksheet` populates it: the sheet name,
the sparse value dict, the merge ranges and the precomputed `max_row` /
`max_col` (lines 247-248), which bound the styling pass only. -/
structure Sheet where
  name : String
  values : List ((Nat × Nat) × String)
  merges : List (Nat × Nat × Nat × Nat)
  maxRow : Nat
  maxCol : Nat
deriving DecidableEq, Repr

/-- The skip reason of line 232. -/
def noTableMsg : String := "未识别到有效的表格数据"

/-- The message produced when the max over RowBr values (line 247) raises
ValueError on an empty cell list and the handler at line 295 formats it. -/
def emptyCellsMsg : String := "创建工作表出错: max() arg is an empty sequence"

/-- Embedding of create_worksheet (lines 226-296), on a workbook modelled as its sheet
list.  Returns the workbook after the call, the success flag and the error
message.  Note the order of effects in the source: `wb.create_sheet` at
line 235 runs before the cell list is inspected, so when region 1 has no
cells the `max(...)` at line 247 raises, the handler at line 295 reports a
failure — and the freshly created empty sheet stays in the workbook. -/
def create_worksheet (wb : List Sheet) (base_name : String) (result : RawResult) :
    List Sheet × Bool × Option String :=
  match result.tableDetections with
  | some (_t0 :: main_table :: _rest) =>
    match main_table.cells with
    | [] =>
      (wb ++ [{ name := base_name, values := [], merges := [], maxRow := 0, maxCol := 0 }],
       false, some emptyCellsMsg)
    | c :: cs =>
      let cells := c :: cs
      let sheet : Sheet :=
        { name := base_name
          values := buildCellDict cells
          merges := buildMerges cells
          maxRow := (cells.map (fun cl => cl.rowBr)).foldl Nat.max 0
          maxCol := (cells.map (fun cl => cl.colBr)).foldl Nat.max 0 }
      (wb ++ [sheet], true, none)
  | _ => (wb, false, some noTableMsg)

/-- The index `os.path.splitext` splits a path at: the last dot, provided it
lies inside the final path component and that component does not consist of
leading dots only. -/
def lastIdxOf (x : Char) (cs : List Char) : Option Nat :=
  (List.range cs.length).foldl (fun acc i => if cs.getD i ' ' = x then some i else acc) none

def extSplitIdx (cs : List Char) : Option Nat :=
  let start := match lastIdxOf '/' cs with
    | some j => j + 1
    | none => 0
  match lastIdxOf '.' cs with
  | some i =>
    if decide (start < i) &&
        (List.range (i - start)).any (fun k => cs.getD (start + k) ' ' ≠ '.') then
      some i
    else none
  | none => none

/-- Python os.path.splitext: the pair (root, ext) with root ++ ext = p. -/
def splitext (p : String) : String × String :=
  match extSplitIdx p.toList with
  | some i => (String.mk (p.toList.take i), String.mk (p.toList.drop i))
  | none => (p, "")

/-- The path `save_workbook` (lines 298-314) writes to: the batch-numbered
temporary name `f"{base_name}_batch{batch_num}{ext}"` when a batch number is
given, the canonical `output_path` otherwise. -/
def save_path (output_path : String) (batch_num : Option Nat) : String :=
  match batch_num with
  | some n => (splitext output_path).1 ++ "_batch" ++ toString n ++ (splitext output_path).2
  | none => output_path

/-- What `future.result()` does for one completed task in the drain loop of
`main` (lines 390-433): return the pair the worker computed, raise
`RuntimeError`, or raise some other exception. -/
inductive Completion where
  | value (result : Option RawResult) (errMsg : Option String)
  | fatal (msg : String)
  | err (msg : String)

/-- The return value of a worker as the future delivers it.  `process_image`
returns in every case (its outer `except` catches everything), so a future
never raises. -/
def toCompletion (w : WorkerRun) : Completion :=
  Completion.value w.result w.errMsg

/-- The mutable state of the drain loop in `main`: the lazily created workbook,
the failure list, the counters, the ordered list of paths saved so far, and
whether the `except RuntimeError` branch has executed its `return`. -/
structure RunState where
  wb : Option (List Sheet)
  failed_files : List (String × String)
  success_count : Nat
  batch_counter : Nat
  processed_count : Nat
  saves : List String
  aborted : Bool
deriving DecidableEq, Repr

def initState : RunState :=
  { wb := none, failed_files := [], success_count := 0, batch_counter := 0,
    processed_count := 0, saves := [], aborted := false }

/-- One iteration of `for future in concurrent.futures.as_completed(...)`
(lines 390-433).  After the `except RuntimeError` branch has returned,
nothing further happens. -/
def drainStep (batch_size : Nat) (output_path : String) (st : RunState)
    (item : String × Completion) : RunState :=
  if st.aborted then st
  else
    let img_name := item.1
    let st := { st with processed_count := st.processed_count + 1 }
    match item.2 with
    | .value (some result) _ =>
      let base_name := (splitext img_name).1
      let wb0 := st.wb.getD []
      let r := create_worksheet wb0 base_name result
      if r.2.1 then
        let success_count := st.success_count + 1
        let batch_counter := st.batch_counter + 1
        if batch_size ≤ batch_counter then
          { st with wb := some r.1, success_count := success_count, batch_counter := 0,
                    saves := st.saves ++ [save_path output_path (some (success_count / batch_size))] }
        else
          { st with wb := some r.1, success_count := success_count,
                    batch_counter := batch_counter }
      else
        { st with wb := some r.1,
                  failed_files := st.failed_files ++ [(img_name, (r.2.2).getD "")] }
    | .value none errMsg =>
      { st with failed_files := st.failed_files ++ [(img_name, errMsg.getD "")] }
    | .fatal _ => { st with aborted := true }
    | .err msg => { st with failed_files := st.failed_files ++ [(img_name, msg)] }

/-- The whole drain loop over an arrival-ordered list of completions. -/
def drainAll (batch_size : Nat) (output_path : String)
    (completions : List (String × Completion)) : RunState :=
  completions.foldl (drainStep batch_size output_path) initState

/-- Draining followed by the final save of lines 435-437: performed only when
the drain loop ran to completion (no `return` from the RuntimeError branch)
and a workbook was created. -/
def runBatch (batch_size : Nat) (output_path : String)
    (completions : List (String × Completion)) : RunState :=
  let st := drainAll batch_size output_path completions
  if st.aborted then st
  else
    match st.wb with
    | some _ => { st with saves := st.saves ++ [save_path output_path none] }
    | none => st

/-- One image task as submitted to the pool: its file name, its on-disk size
(`none` when unreadable) and the behaviour of the service per attempt. -/
structure ImageTask where
  name : String
  fileSize : Option Nat
  attempts : Nat → AttemptResult

/-- The completions a task list produces (in one arrival order; theorems
quantify over the list, so every arrival order is covered). -/
def taskCompletions (tasks : List ImageTask) : List (String × Completion) :=
  tasks.map (fun t => (t.name, toCompletion (process_image t.fileSize t.attempts)))

/-- Default of the batch size command-line option (line 324). -/
def default_batch_size : Nat := 10

/-- Number of sheets in the (possibly not yet created) workbook. -/
def sheetCount (st : RunState) : Nat := (st.wb.getD []).length

/-- A recognition result that does not hit the empty-main-table corner of
`create_worksheet`: either it is skipped for lacking two regions, or
region 1 has at least one cell. -/
def goodResult (r : RawResult) : Bool :=
  match r.tableDetections with
  | some (_t0 :: main_table :: _rest) => !main_table.cells.isEmpty
  | _ => true

/-! ## Shared sample inputs and helper lemmas -/

/-- A recognition result with two regions whose main table has one cell. -/
def okResult : RawResult :=
  { tableDetections := some [{ cells := [] }, { cells := [⟨0, 1, 0, 1, "x"⟩] }] }

/-- A task whose recognition succeeds on the first attempt. -/
def goodTask : ImageTask :=
  { name := "good.png", fileSize := some 100, attempts := fun _ => .success okResult }

/-- A task whose recognition raises an `AuthFailure` code that is not in the
`non_retryable_errors` table, i.e. one taking the `raise RuntimeError` path
of line 182. -/
def authTask : ImageTask :=
  { name := "bad.png", fileSize := some 100,
    attempts := fun _ => .sdkError "AuthFailure.UnauthorizedOperation" "auth failed" }

theorem check_image_size_le (sz : Nat) (h : sz ≤ MAX_IMAGE_SIZE) :
    check_image_size (some sz) = true := by
  simp only [check_image_size, if_neg (Nat.not_lt.mpr h)]

theorem classify_retryable (code : String) (h : classify code = ErrCategory.Retryable) :
    non_retryable_errors.lookup code = none ∧ startsWithAuth code = false := by
  unfold classify at h
  cases hl : non_retryable_errors.lookup code with
  | none =>
    rw [hl] at h
    by_cases hs : startsWithAuth code
    · rw [if_pos hs] at h
      exact ErrCategory.noConfusion h
    · exact ⟨rfl, by simpa using hs⟩
  | some v =>
    rw [hl] at h
    exact ErrCategory.noConfusion h

/-! ## Claim theorems -/

/-- C5: for every image whose file size exceeds the fixed 3 MiB ceiling, the
worker returns a Failure without making any network call: whatever the
service would have answered, the outcome is the size-rejection failure with
zero recognition requests submitted. -/
theorem c5_oversize_rejected_no_call (sz : Nat) (attempts : Nat → AttemptResult)
    (h : MAX_IMAGE_SIZE < sz) :
    process_image (some sz) attempts =
      { result := none, errMsg := some "图片超过3MB限制", calls := 0, sleeps := [] } := by
  simp [process_image, check_image_size, if_pos h]

theorem c5_oversize_witness :
    process_image (some (MAX_IMAGE_SIZE + 1)) (fun _ => .netError "unreachable") =
      { result := none, errMsg := some "图片超过3MB限制", calls := 0, sleeps := [] } :=
  c5_oversize_rejected_no_call (MAX_IMAGE_SIZE + 1) (fun _ => .netError "unreachable")
    (Nat.lt_succ_self MAX_IMAGE_SIZE)

/-- C10: for every image whose size cannot be read at all, the worker returns
a Failure with the same reason string as the over-3MB rejection
(`check_image_size` returns `False` from its `except` branch exactly as from
its over-limit branch), and no network call is made; in fact the whole
observable outcome coincides with the oversize one. -/
theorem c10_unreadable_same_as_oversize (attempts : Nat → AttemptResult) :
    process_image none attempts =
      { result := none, errMsg := some "图片超过3MB限制", calls := 0, sleeps := [] } ∧
    ∀ sz : Nat, MAX_IMAGE_SIZE < sz →
      process_image (some sz) attempts = process_image none attempts := by
  refine ⟨rfl, fun sz h => ?_⟩
  simp [process_image, check_image_size, if_pos h]

/-- C9: for every service error code in the terminal (`non_retryable_errors`)
set, the worker makes exactly one recognition call, sleeps never, and returns
a Failure whose message is the mapped friendly text, the remediation hint
(the specific one when `error_guidance` has it, the generic one otherwise)
and the error code. -/
theorem c9_terminal_one_call (code msg friendly : String) (sz : Nat)
    (hsz : sz ≤ MAX_IMAGE_SIZE)
    (hl : non_retryable_errors.lookup code = some friendly) :
    process_image (some sz) (fun _ => .sdkError code msg) =
      { result := none,
        errMsg := some (friendly ++ " | " ++
          ((error_guidance.lookup code).getD generic_guidance) ++ " [错误码: " ++ code ++ "]"),
        calls := 1, sleeps := [] } := by
  have hc := check_image_size_le sz hsz
  have hr3 : List.range max_retries = [0, 1, 2] := rfl
  simp [process_image, hc, hr3, processLoop, hl, terminalMessage]

theorem c9_terminal_witness :
    process_image (some 5) (fun _ => .sdkError "FailedOperation.OcrFailed.NoTable" "m") =
      { result := none,
        errMsg := some ("未检测到表格" ++ " | " ++
          ((error_guidance.lookup "FailedOperation.OcrFailed.NoTable").getD generic_guidance) ++
          " [错误码: " ++ "FailedOperation.OcrFailed.NoTable" ++ "]"),
        calls := 1, sleeps := [] } :=
  c9_terminal_one_call "FailedOperation.OcrFailed.NoTable" "m" "未检测到表格" 5
    (by decide) (by decide)

/-- C3: for every service error code the classifier retries (not in the
terminal table, not an `AuthFailure` prefix), the worker makes exactly 3
attempts, sleeping 2 then 4 time-units between them, and on exhaustion
returns a Failure built from the retry-exhausted text, the service message
of the last attempt and its code — unless an earlier attempt succeeds, in
which case submission stops there (success on attempt 2 means 2 calls and
one sleep of 2). -/
theorem c3_retryable_three_attempts (code msg : Nat → String) (sz : Nat)
    (hsz : sz ≤ MAX_IMAGE_SIZE)
    (hr : ∀ k, classify (code k) = ErrCategory.Retryable) :
    process_image (some sz) (fun k => .sdkError (code k) (msg k)) =
      { result := none,
        errMsg := some ("重试失败: " ++ msg 2 ++ " [错误码: " ++ code 2 ++ "]"),
        calls := 3, sleeps := [2, 4] } ∧
    ∀ r : RawResult,
      process_image (some sz)
          (fun k => if k = 0 then .sdkError (code 0) (msg 0) else .success r) =
        { result := some r, errMsg := none, calls := 2, sleeps := [2] } := by
  have hc := check_image_size_le sz hsz
  have hr3 : List.range max_retries = [0, 1, 2] := rfl
  obtain ⟨hl0, hs0⟩ := classify_retryable _ (hr 0)
  obtain ⟨hl1, hs1⟩ := classify_retryable _ (hr 1)
  obtain ⟨hl2, hs2⟩ := classify_retryable _ (hr 2)
  constructor
  · simp [process_image, hc, hr3, processLoop, hl0, hs0, hl1, hs1, hl2, hs2, max_retries]
  · intro r
    simp [process_image, hc, hr3, processLoop, hl0, hs0, max_retries]

theorem c3_retryable_witness :
    process_image (some 100) (fun _ => .sdkError "RequestLimitExceeded" "freq") =
      { result := none,
        errMsg := some ("重试失败: " ++ "freq" ++ " [错误码: " ++ "RequestLimitExceeded" ++ "]"),
        calls := 3, sleeps := [2, 4] } ∧
    ∀ r : RawResult,
      process_image (some 100)
          (fun k => if k = 0 then .sdkError "RequestLimitExceeded" "freq" else .success r) =
        { result := some r, errMsg := none, calls := 2, sleeps := [2] } :=
  c3_retryable_three_attempts (fun _ => "RequestLimitExceeded") (fun _ => "freq") 100
    (by decide)
    (fun _ => by show classify "RequestLimitExceeded" = ErrCategory.Retryable; decide)

/-- The three service codes denoting credential, signature or token
invalidity (the `# 认证错误` block of `non_retryable_errors`, lines 119-122). -/
def credentialCodes : List String :=
  ["AuthFailure.SecretIdNotFound", "AuthFailure.SignatureFailure", "AuthFailure.TokenFailure"]

/-- C2 counterexample: `AuthFailure.SecretIdNotFound` denotes credential
invalidity, yet the classifier assigns it the per-task Terminal category —
the `non_retryable_errors` membership test at line 175 fires before the
`AuthFailure` prefix test at line 181 ever runs — so it is not AuthFatal. -/
theorem c2_secret_id_not_auth_fatal :
    classify "AuthFailure.SecretIdNotFound" = ErrCategory.Terminal ∧
    ¬classify "AuthFailure.SecretIdNotFound" = ErrCategory.AuthFatal := by decide

/-- C2 amended: the three credential/signature/token codes are classified
per-task Terminal (they sit in the non-retryable table, which is consulted
first); the AuthFatal run-aborting category is assigned exactly to the codes
with the `AuthFailure` prefix that are absent from that table. -/
theorem c2_amended_credential_codes_terminal (code : String) :
    (code ∈ credentialCodes → classify code = ErrCategory.Terminal) ∧
    (classify code = ErrCategory.AuthFatal ↔
      startsWithAuth code = true ∧ non_retryable_errors.lookup code = none) := by
  constructor
  · intro h
    simp only [credentialCodes, List.mem_cons, List.mem_singleton, List.not_mem_nil,
      or_false] at h
    rcases h with rfl | rfl | rfl <;> decide
  · unfold classify
    cases hl : non_retryable_errors.lookup code with
    | none =>
      by_cases hs : startsWithAuth code <;> simp [hs]
    | some v => simp

/-- C6: for a reported cell the grid builder converts the zero-based starts
to 1-based, uses the exclusive end bounds directly as 1-based inclusive ends,
strips line breaks from the text, places the text only at the top-left
coordinate, and records the range as a merge iff it spans more than one row
or more than one column; in particular zero-based `rowStart=0, rowEnd=2,
colStart=0, colEnd=1` yields the merge rows 1-2 of column 1 with the text
only at `(1, 1)`. -/
theorem c6_cell_conversion (wb : List Sheet) (nm : String) (t0 : Table)
    (c : TableCell) (rest : List Table) :
    (let out := create_worksheet wb nm
        { tableDetections := some (t0 :: { cells := [c] } :: rest) }
     out.2.1 = true ∧
     ∃ sh : Sheet, out.1 = wb ++ [sh] ∧
       dictGet sh.values (c.rowTl + 1, c.colTl + 1) = some (stripNewlines c.text) ∧
       (∀ p : Nat × Nat, p ≠ (c.rowTl + 1, c.colTl + 1) → dictGet sh.values p = none) ∧
       sh.merges = (if c.rowTl + 1 < c.rowBr ∨ c.colTl + 1 < c.colBr
                    then [(c.rowTl + 1, c.rowBr, c.colTl + 1, c.colBr)] else [])) ∧
    create_worksheet [] "t"
        { tableDetections := some [{ cells := [] }, { cells := [⟨0, 2, 0, 1, "T"⟩] }] } =
      ([{ name := "t", values := [((1, 1), "T")], merges := [(1, 2, 1, 1)],
          maxRow := 2, maxCol := 1 }], true, none) := by
  refine ⟨⟨rfl, ?_⟩, by decide⟩
  refine ⟨_, rfl, ?_, ?_, ?_⟩
  · simp [create_worksheet, buildCellDict, dictInsert, dictGet]
  · intro p hp
    simp [create_worksheet, buildCellDict, dictInsert, dictGet, Ne.symm hp]
  · by_cases h1 : c.rowTl + 1 < c.rowBr <;> by_cases h2 : c.colTl + 1 < c.colBr <;>
      simp [create_worksheet, buildMerges, h1, h2]

/-- C7: a recognition result with fewer than 2 detected table regions is
skipped with the no-valid-table-data reason and changes nothing (no sheet is
built); for a result with at least 2 regions the output depends only on the
region at index 1 — replacing region 0 and every region past index 1 leaves
the outcome unchanged. -/
theorem c7_skip_and_region_one (wb : List Sheet) (nm : String) (r : RawResult)
    (h : (r.tableDetections.getD []).length < 2) :
    create_worksheet wb nm r = (wb, false, some "未识别到有效的表格数据") ∧
    ∀ (t0 t0h t1 : Table) (rest resth : List Table),
      create_worksheet wb nm { tableDetections := some (t0 :: t1 :: rest) } =
        create_worksheet wb nm { tableDetections := some (t0h :: t1 :: resth) } := by
  constructor
  · obtain ⟨td⟩ := r
    cases td with
    | none => rfl
    | some l =>
      match l with
      | [] => rfl
      | [t0] => rfl
      | t0 :: t1 :: rest => simp at h; omega
  · intro t0 t0h t1 rest resth
    rfl

theorem c7_skip_witness :
    create_worksheet [] "a" { tableDetections := some [{ cells := [⟨0, 1, 0, 1, "x"⟩] }] } =
      ([], false, some "未识别到有效的表格数据") ∧
    ∀ (t0 t0h t1 : Table) (rest resth : List Table),
      create_worksheet [] "a" { tableDetections := some (t0 :: t1 :: rest) } =
        create_worksheet [] "a" { tableDetections := some (t0h :: t1 :: resth) } :=
  c7_skip_and_region_one [] "a"
    { tableDetections := some [{ cells := [⟨0, 1, 0, 1, "x"⟩] }] } (by decide)

/-- C1: the code violates the claim.  `AuthFailure.UnauthorizedOperation` is
auth-fatal by the classification of the code itself (the RuntimeError raise of
line 182 is taken), yet the batch run does not terminate: the outer
`except Exception` at line 221 catches that `RuntimeError` and converts it to
the per-task failure message, so the dead
`except RuntimeError` handler (line 426) never fires — draining continues, a
FailureRecord is appended for the auth task, and the final save of the
workbook to the canonical path still occurs. -/
theorem c1_auth_fatal_swallowed :
    classify "AuthFailure.UnauthorizedOperation" = ErrCategory.AuthFatal ∧
    (let st := runBatch default_batch_size "out/run.xlsx"
        (taskCompletions [goodTask, authTask])
     st.aborted = false ∧
     st.failed_files = [("bad.png",
       "处理错误: 腾讯云认证错误: auth failed [错误码: AuthFailure.UnauthorizedOperation]")] ∧
     st.saves = ["out/run.xlsx"] ∧
     st.processed_count = 2) := by decide

/-- A recognition result whose region list has two entries but whose main
table (index 1) has an empty cell list: `create_worksheet` creates the sheet
at line 235, then `max(...)` at line 247 raises on the empty sequence, the
handler at line 295 reports a failure — and the empty sheet stays. -/
def emptyMainResult : RawResult :=
  { tableDetections := some [{ cells := [] }, { cells := [] }] }

/-- C4 counterexample: a single task whose result has two regions but an
empty main-table cell list ends the run with one sheet in the workbook AND
one FailureRecord — the task contributes both dispositions, so the counts do
not add up to the task count. -/
theorem c4_ghost_sheet_counterexample :
    (let st := runBatch default_batch_size "out.xlsx"
        [("img.png", Completion.value (some emptyMainResult) none)]
     sheetCount st = 1 ∧ st.failed_files.length = 1 ∧ st.processed_count = 1 ∧
     ¬sheetCount st + st.failed_files.length = 1) := by decide

theorem drainStep_disposition (bs : Nat) (out : String) (st : RunState) (t : ImageTask)
    (hab : st.aborted = false)
    (hg : ∀ r, (process_image t.fileSize t.attempts).result = some r → goodResult r = true) :
    (let st2 := drainStep bs out st (t.name, toCompletion (process_image t.fileSize t.attempts))
     st2.aborted = false ∧ st2.processed_count = st.processed_count + 1 ∧
     ((sheetCount st2 = sheetCount st + 1 ∧ st2.failed_files = st.failed_files) ∨
      (sheetCount st2 = sheetCount st ∧
        st2.failed_files.length = st.failed_files.length + 1))) := by
  cases hw : (process_image t.fileSize t.attempts).result with
  | none =>
    simp [drainStep, toCompletion, hab, hw, sheetCount]
  | some r =>
    have hgr := hg r hw
    obtain ⟨td⟩ := r
    cases td with
    | none =>
      simp [drainStep, toCompletion, hab, hw, create_worksheet, sheetCount]
    | some l =>
      match l with
      | [] => simp [drainStep, toCompletion, hab, hw, create_worksheet, sheetCount]
      | [t0] => simp [drainStep, toCompletion, hab, hw, create_worksheet, sheetCount]
      | t0 :: t1 :: rest =>
        cases hcells : t1.cells with
        | nil => simp [goodResult, hcells] at hgr
        | cons c cs =>
          by_cases hbs : bs ≤ st.batch_counter + 1 <;>
            simp [drainStep, toCompletion, hab, hw, create_worksheet, hcells,
              sheetCount, hbs]

theorem drainAll_count (bs : Nat) (out : String) (tasks : List ImageTask) (st : RunState)
    (hab : st.aborted = false)
    (hg : ∀ t ∈ tasks, ∀ r,
      (process_image t.fileSize t.attempts).result = some r → goodResult r = true) :
    (let st2 := (taskCompletions tasks).foldl (drainStep bs out) st
     st2.aborted = false ∧
     sheetCount st2 + st2.failed_files.length =
       sheetCount st + st.failed_files.length + tasks.length) := by
  induction tasks generalizing st with
  | nil => simpa [taskCompletions] using hab
  | cons t ts ih =>
    obtain ⟨h1, _h2, h3⟩ :=
      drainStep_disposition bs out st t hab (hg t (List.mem_cons_self t ts))
    have hrec := ih (drainStep bs out st (t.name, toCompletion (process_image t.fileSize t.attempts)))
      h1 (fun u hu => hg u (List.mem_cons_of_mem t hu))
    simp only [taskCompletions, List.map_cons, List.foldl_cons] at hrec ⊢
    refine ⟨hrec.1, ?_⟩
    rw [hrec.2]
    rcases h3 with ⟨hs, hf⟩ | ⟨hs, hf⟩ <;> rw [hs] <;> simp [hf] <;> omega

/-- C4 amended: every task yields exactly one terminal disposition — each
drained completion either adds exactly one sheet to the workbook or appends
exactly one FailureRecord, and over a whole run sheets plus failure records
equal the task count — PROVIDED no successful recognition result has at
least two regions with an empty main-table cell list (in that corner the
sheet created at line 235 survives the `max()` exception and the task also
gets a FailureRecord, as the counterexample shows). -/
theorem c4_amended_one_disposition (bs : Nat) (out : String) (tasks : List ImageTask)
    (hg : ∀ t ∈ tasks, ∀ r,
      (process_image t.fileSize t.attempts).result = some r → goodResult r = true) :
    (let fin := runBatch bs out (taskCompletions tasks)
     sheetCount fin + fin.failed_files.length = tasks.length) ∧
    (∀ (st : RunState) (t : ImageTask), st.aborted = false →
      (∀ r, (process_image t.fileSize t.attempts).result = some r → goodResult r = true) →
      (let st2 := drainStep bs out st (t.name, toCompletion (process_image t.fileSize t.attempts))
       (sheetCount st2 = sheetCount st + 1 ∧ st2.failed_files = st.failed_files) ∨
       (sheetCount st2 = sheetCount st ∧
         st2.failed_files.length = st.failed_files.length + 1))) := by
  constructor
  · obtain ⟨hna, hcount⟩ := drainAll_count bs out tasks initState rfl hg
    show sheetCount (runBatch bs out (taskCompletions tasks)) +
      (runBatch bs out (taskCompletions tasks)).failed_files.length = tasks.length
    unfold runBatch
    rw [show drainAll bs out (taskCompletions tasks) =
      (taskCompletions tasks).foldl (drainStep bs out) initState from rfl]
    rw [if_neg (by simp [hna])]
    cases hwb : ((taskCompletions tasks).foldl (drainStep bs out) initState).wb with
    | none => simpa [initState, sheetCount] using hcount
    | some sheets =>
      simp only [sheetCount, hwb] at hcount
      simpa [initState, sheetCount, hwb] using hcount
  · intro st t hab hgt
    exact (drainStep_disposition bs out st t hab hgt).2.2

theorem c4_one_disposition_witness :
    (let fin := runBatch default_batch_size "out.xlsx" (taskCompletions [goodTask])
     sheetCount fin + fin.failed_files.length = 1) :=
  (c4_amended_one_disposition default_batch_size "out.xlsx" [goodTask] (by
    intro t ht r hr
    simp only [List.mem_singleton] at ht
    subst ht
    have heval : (process_image goodTask.fileSize goodTask.attempts).result =
        some okResult := by decide
    rw [heval] at hr
    cases hr
    decide)).1

theorem splitext_append (p : String) : (splitext p).1 ++ (splitext p).2 = p := by
  cases p with
  | mk data =>
    unfold splitext
    cases extSplitIdx (String.mk data).toList with
    | none => exact String.append_empty (String.mk data)
    | some i =>
      show String.mk (data.take i ++ data.drop i) = String.mk data
      rw [List.take_append_drop]

theorem save_path_ne_canonical (p : String) (n : Nat) : save_path p (some n) ≠ p := by
  intro h
  have hp : (splitext p).1.length + (splitext p).2.length = p.length := by
    have := congrArg String.length (splitext_append p)
    rwa [String.length_append] at this
  have h6 : "_batch".length = 6 := rfl
  have hl : (save_path p (some n)).length =
      (splitext p).1.length + "_batch".length + (toString n).length +
        (splitext p).2.length := by
    simp [save_path, String.length_append]
  rw [h] at hl
  omega

theorem drainStep_saves (bs : Nat) (out : String) (st : RunState)
    (item : String × Completion) :
    (drainStep bs out st item).saves = st.saves ∨
    ∃ n : Nat, (drainStep bs out st item).saves =
      st.saves ++ [save_path out (some n)] := by
  rcases item with ⟨nm, comp⟩
  unfold drainStep
  by_cases hab : st.aborted = true
  · simp [hab]
  · simp only [Bool.not_eq_true] at hab
    simp only [hab, Bool.false_eq_true, if_false]
    cases comp with
    | value result errMsg =>
      cases result with
      | none => simp
      | some r =>
        dsimp only
        by_cases hs : (create_worksheet (st.wb.getD []) (splitext nm).1 r).2.1 = true
        · simp only [hs, if_true]
          by_cases hbs : bs ≤ st.batch_counter + 1
          · exact Or.inr ⟨(st.success_count + 1) / bs, by simp [hbs]⟩
          · exact Or.inl (by simp [hbs])
        · simp [hs]
    | fatal m => simp
    | err m => simp

theorem drainAll_no_canonical (bs : Nat) (out : String)
    (comps : List (String × Completion)) (st : RunState) (h : out ∉ st.saves) :
    out ∉ (comps.foldl (drainStep bs out) st).saves := by
  induction comps generalizing st with
  | nil => exact h
  | cons c cs ih =>
    refine ih _ ?_
    rcases drainStep_saves bs out st c with hq | ⟨n, hq⟩
    · rw [hq]; exact h
    · rw [hq]
      simp only [List.mem_append, List.mem_singleton]
      rintro (hmem | heq)
      · exact h hmem
      · exact save_path_ne_canonical out n heq.symm

/-- C8: when a success makes the batch counter reach the threshold, the
drain loop saves a checkpoint workbook to the derived path embedding the
checkpoint number `success_count // batch_size` and resets the batch counter
to zero; the derived path never equals the canonical output path, and no
drain-loop save ever writes the canonical path — it is written only by the
final save. -/
theorem c8_checkpoint_save (bs : Nat) (out : String) (st : RunState)
    (nm : String) (r : RawResult)
    (hab : st.aborted = false)
    (hreach : st.batch_counter + 1 = bs)
    (hsucc : (create_worksheet (st.wb.getD []) (splitext nm).1 r).2.1 = true) :
    (let st2 := drainStep bs out st (nm, Completion.value (some r) none)
     st2.batch_counter = 0 ∧
     st2.saves = st.saves ++ [save_path out (some ((st.success_count + 1) / bs))] ∧
     st2.success_count = st.success_count + 1) ∧
    save_path out (some ((st.success_count + 1) / bs)) ≠ out ∧
    ∀ comps : List (String × Completion), out ∉ (drainAll bs out comps).saves := by
  refine ⟨?_, save_path_ne_canonical out _,
    fun comps => drainAll_no_canonical bs out comps initState (by simp [initState])⟩
  have hle : bs ≤ st.batch_counter + 1 := Nat.le_of_eq hreach.symm
  simp [drainStep, hab, hsucc, hle]

/-- A drain-loop state nine successes in, right below the default threshold. -/
def c8State : RunState :=
  { wb := some [], failed_files := [], success_count := 9, batch_counter := 9,
    processed_count := 9, saves := [], aborted := false }

theorem c8_checkpoint_witness :
    (let st2 := drainStep default_batch_size "out/run.xlsx" c8State
        ("img.png", Completion.value (some okResult) none)
     st2.batch_counter = 0 ∧
     st2.saves = c8State.saves ++
       [save_path "out/run.xlsx" (some ((c8State.success_count + 1) / default_batch_size))] ∧
     st2.success_count = c8State.success_count + 1) ∧
    save_path "out/run.xlsx" (some ((c8State.success_count + 1) / default_batch_size)) ≠
      "out/run.xlsx" ∧
    ∀ comps : List (String × Completion),
      "out/run.xlsx" ∉ (drainAll default_batch_size "out/run.xlsx" comps).saves :=
  c8_checkpoint_save default_batch_size "out/run.xlsx" c8State "img.png" okResult
    rfl (by decide) (by decide)

end TableOCR

